import Mathlib

/-!
Shallow embedding of the explicit-synchronization core of `pipewire-rs`
(DRM syncobj timelines): the SPA buffer data model (`src/libspa/src/buffer/mod.rs`),
timeline metadata and its asynchronous waiters (`src/libspa/src/buffer/meta.rs`),
the DRM ioctl adapter (`src/libspa/src/drm.rs`), and the async utilities
(`src/pipewire/src/async_v/utils.rs`, `src/pipewire/src/async_v/buffer.rs`,
`src/pipewire/src/buffer.rs`).

Machine integers are modelled as `Nat` (u32/u64 fields) and `Int` (i32/i64
fields and raw file descriptors); fallible Rust functions returning
`Result`/`Option` become `Except`/`Option`.  System calls (ioctls, `open`,
`dup`, `eventfd`, `read`) are modelled by an oracle environment `DrmEnv`, and
every function that issues system calls also returns the list of calls it
issued (`List KernelCall`), so that "no kernel call is made" is a provable
statement.  Clocks are injected: each `poll` takes the elapsed time (or the
current instant) as an argument, mirroring `Instant::now()` / `elapsed()` at
the corresponding point of the source.
-/

/-! ### SPA data model — `src/libspa/src/buffer/mod.rs` -/

/-- `pub struct DataType(spa_sys::spa_data_type)` — a transparent wrapper
around the raw SPA data-type tag (a `u32`). -/
structure DataType where
  raw : Nat
deriving DecidableEq, Repr

/-- `SPA_DATA_Invalid` -/
def DataType.Invalid : DataType := ⟨0⟩

/-- `SPA_DATA_MemPtr` -/
def DataType.MemPtr : DataType := ⟨1⟩

/-- `SPA_DATA_MemFd` -/
def DataType.MemFd : DataType := ⟨2⟩

/-- `SPA_DATA_DmaBuf` -/
def DataType.DmaBuf : DataType := ⟨3⟩

/-- `SPA_DATA_MemId` -/
def DataType.MemId : DataType := ⟨4⟩

/-- `SPA_DATA_SyncObj` -/
def DataType.SyncObj : DataType := ⟨5⟩

/-- `DataType::from_raw` -/
def DataType.from_raw (raw : Nat) : DataType := ⟨raw⟩

/-- The fields of `spa_sys::spa_data` that the verified operations read:
the type tag (`u32`), the flags (`u32`) and the file descriptor (`i64`).
The payload pointer, map offset, max size and chunk pointer play no role in
the claims and are not modelled. -/
structure spa_data where
  type_ : Nat
  flags : Nat
  fd : Int
deriving DecidableEq, Repr

/-- `#[repr(transparent)] pub struct Data(spa_sys::spa_data)` -/
structure Data where
  raw : spa_data
deriving DecidableEq, Repr

/-- `Data::type_` -/
def Data.type_ (d : Data) : DataType := DataType.from_raw d.raw.type_

/-- `i64::try_into::<i32>().ok()` — succeeds exactly when the 64-bit value
fits in a signed 32-bit integer. -/
def i64_try_into_i32 (x : Int) : Option Int :=
  if -(2 ^ 31) ≤ x ∧ x < 2 ^ 31 then some x else none

/-- `Data::fd` — the file descriptor of a data element, `None` unless the
type is `MemFd`, `DmaBuf` or `SyncObj`, the stored `i64` is non-negative and
it converts to an `i32` (RawFd). -/
def Data.fd (d : Data) : Option Int :=
  if d.type_ = DataType.MemFd ∨ d.type_ = DataType.DmaBuf ∨ d.type_ = DataType.SyncObj then
    if d.raw.fd ≥ 0 then i64_try_into_i32 d.raw.fd else none
  else none

/-- `Data::dma_buf_fd` — the stored fd converted to `i32` when the element is
a DMA-BUF, `None` otherwise. -/
def Data.dma_buf_fd (d : Data) : Option Int :=
  if d.type_ = DataType.DmaBuf then i64_try_into_i32 d.raw.fd else none

/-- Modelled from the spec: `Data::sync_obj_fd`, called by
`SyncTimelineRef::extract_timeline_fds_from_buffer_data` but not present in
the sources.  Per the spec it yields the file descriptor of "the data
elements whose type tag marks them as synchronization-object file
descriptors"; modelled analogously to `Data::dma_buf_fd`. -/
def Data.sync_obj_fd (d : Data) : Option Int :=
  if d.type_ = DataType.SyncObj then i64_try_into_i32 d.raw.fd else none

/-! ### Timeline fd extraction — `src/libspa/src/buffer/meta.rs` and
`src/pipewire/src/buffer.rs` -/

/-- The `for (index, data) in buffer_data.iter().enumerate()` loop of
`SyncTimelineRef::extract_timeline_fds_from_buffer_data`: on a sync-object
fd at absolute array index 0 it fills the acquire slot, at absolute index 1
the release slot, and ignores every other index. -/
def extractLoop : List Data → Nat → Option Int → Option Int → Option Int × Option Int
  | [], _, acquire_fd, release_fd => (acquire_fd, release_fd)
  | d :: rest, index, acquire_fd, release_fd =>
    match d.sync_obj_fd with
    | some fd =>
      match index with
      | 0 => extractLoop rest (index + 1) (some fd) release_fd
      | 1 => extractLoop rest (index + 1) acquire_fd (some fd)
      | _ + 2 => extractLoop rest (index + 1) acquire_fd release_fd
    | none => extractLoop rest (index + 1) acquire_fd release_fd

/-- `SyncTimelineRef::extract_timeline_fds_from_buffer_data` — returns the
`(acquire, release)` pair when both slots were filled by the loop, an error
otherwise. -/
def SyncTimelineRef.extract_timeline_fds_from_buffer_data
    (buffer_data : List Data) : Except String (Int × Int) :=
  match extractLoop buffer_data 0 none none with
  | (some acq, some rel) => .ok (acq, rel)
  | _ => .error
      "Buffer does not contain required acquire and release timeline file descriptors"

/-- `Buffer::datas_with_type` (`src/pipewire/src/buffer.rs`) — all data
elements of the given type, `None` when there are none.  The buffer is
modelled by its list of data elements. -/
def Buffer.datas_with_type (datas : List Data) (data_type : DataType) : Option (List Data) :=
  let matching_datas := datas.filter (fun d => d.type_ = data_type)
  if matching_datas.isEmpty then none else some matching_datas

/-- `Buffer::get_sync_fds` — the fds of the first and second sync-object
elements (wherever they sit in the array), `None` with fewer than two. -/
def Buffer.get_sync_fds (datas : List Data) : Option (Int × Int) :=
  match Buffer.datas_with_type datas DataType.SyncObj with
  | some sync_datas =>
    match sync_datas with
    | d0 :: d1 :: _ =>
      match d0.fd, d1.fd with
      | some acquire_fd, some release_fd => some (acquire_fd, release_fd)
      | _, _ => none
    | _ => none
  | none => none

/-! ### DRM ioctl adapter — `src/libspa/src/drm.rs`

Each system call the adapter can issue is recorded as a `KernelCall`; the
outcome of each call is read from an oracle environment `DrmEnv`. -/

/-- One system call issued by the DRM adapter or the waiters. -/
inductive KernelCall
  /-- `ioctl(fd, DRM_IOCTL_VERSION, ..)` — the validity probe of `is_drm_fd`. -/
  | versionIoctl (fd : Int)
  /-- `ioctl(device, DRM_IOCTL_SYNCOBJ_FD_TO_HANDLE, ..)` -/
  | fdToHandleIoctl (device : Int) (syncobj_fd : Int)
  /-- `ioctl(device, DRM_IOCTL_SYNCOBJ_QUERY, ..)` -/
  | queryIoctl (device : Int) (handle : Nat)
  /-- `ioctl(device, DRM_IOCTL_SYNCOBJ_TIMELINE_SIGNAL, ..)` -/
  | signalIoctl (device : Int) (handle : Nat) (point : Nat)
  /-- `ioctl(device, DRM_IOCTL_SYNCOBJ_EVENTFD, ..)` -/
  | eventfdRegisterIoctl (device : Int) (handle : Nat) (point : Nat) (event_fd : Int)
  /-- `libc::eventfd(0, EFD_CLOEXEC | EFD_NONBLOCK)` -/
  | eventfdSyscall
  /-- `libc::read(event_fd, .., 8)` on the eventfd. -/
  | eventfdReadSyscall (fd : Int)
  /-- `std::fs::File::open("/dev/dri/cardN")` -/
  | openDevice (index : Nat)
  /-- `libc::dup(fd)` -/
  | dupSyscall (fd : Int)
deriving DecidableEq, Repr

/-- `std::io::Error` as the adapter produces it: `InvalidInput` with a
message, `NotFound` with a message, or `last_os_error()` carrying the OS
errno. -/
inductive IOErr
  | invalidInput (msg : String)
  | notFound (msg : String)
  | osError (errno : Nat)
deriving DecidableEq, Repr

/-- Outcome of `AsyncFd::poll_read_ready` on the eventfd. -/
inductive ReadyOutcome
  | readyOk
  | readyErr (errno : Nat)
  | pending
deriving DecidableEq, Repr

/-- Outcome of the `try_io` eventfd read.  `wouldBlock` covers both the
`Err(_would_block)` return of `try_io` and a `read` failing with
`EWOULDBLOCK`: the source continues waiting identically in both arms. -/
inductive TryIoOutcome
  /-- `read` returned 8 bytes carrying this counter value. -/
  | ok (value : Nat)
  | wouldBlock
  /-- `read` returned `-1` with this errno (not `EWOULDBLOCK`). -/
  | ioErr (errno : Nat)
  /-- `read` returned a byte count other than 8 (`UnexpectedEof`). -/
  | eof
deriving DecidableEq, Repr

/-- Oracle environment for every system call the code can issue.  A field
per call site: the model is deterministic relative to this environment. -/
structure DrmEnv where
  /-- Does `ioctl(fd, DRM_IOCTL_VERSION, ..)` return 0 on this fd? -/
  versionOk : Int → Bool
  /-- Does `File::open("/dev/dri/cardN")` succeed for index `N`? -/
  openOk : Nat → Bool
  /-- The raw fd obtained by opening `/dev/dri/cardN`. -/
  openFd : Nat → Int
  /-- Result of `libc::dup(fd)` (negative means failure). -/
  dupRes : Int → Int
  /-- errno after a failed `dup`. -/
  dupErrno : Nat
  /-- `DRM_IOCTL_SYNCOBJ_FD_TO_HANDLE` on (device, syncobj fd): the handle
  the kernel writes back on return 0, or the errno on nonzero return. -/
  fdToHandleRes : Int → Int → Except Nat Nat
  /-- `DRM_IOCTL_SYNCOBJ_QUERY` on (device, handle): the last-submitted
  point written back, or the errno. -/
  queryRes : Int → Nat → Except Nat Nat
  /-- `libc::eventfd` plus `AsyncFd::new`: the new eventfd, or the errno. -/
  eventfdRes : Except Nat Int
  /-- `AsyncFd::poll_read_ready` on the eventfd. -/
  eventfdReady : Int → ReadyOutcome
  /-- The `try_io` read of the 8-byte eventfd counter. -/
  eventfdRead : Int → TryIoOutcome
  /-- `DRM_IOCTL_SYNCOBJ_EVENTFD` on (device, handle, point, eventfd):
  `ok` on return 0, errno on nonzero return. -/
  registerRes : Int → Nat → Nat → Int → Except Nat Unit

/-- `is_drm_fd` — issues the `DRM_IOCTL_VERSION` probe and reports whether
it returned 0. -/
def is_drm_fd (env : DrmEnv) (fd : Int) : Bool × List KernelCall :=
  (env.versionOk fd, [.versionIoctl fd])

/-- `fd_to_drm_handle` — rejects a device fd that fails the version probe
with `InvalidInput` (without issuing the FD_TO_HANDLE ioctl); otherwise
issues `DRM_IOCTL_SYNCOBJ_FD_TO_HANDLE` and returns the kernel-written
handle on return 0, or `last_os_error()` on nonzero return. -/
def fd_to_drm_handle (env : DrmEnv) (drm_device_fd : Int) (syncobj_fd : Int) :
    Except IOErr Nat × List KernelCall :=
  let (ok, t1) := is_drm_fd env drm_device_fd
  if ok then
    match env.fdToHandleRes drm_device_fd syncobj_fd with
    | .ok handle => (.ok handle, t1 ++ [.fdToHandleIoctl drm_device_fd syncobj_fd])
    | .error errno => (.error (.osError errno), t1 ++ [.fdToHandleIoctl drm_device_fd syncobj_fd])
  else
    (.error (.invalidInput "Not a valid DRM device file descriptor"), t1)

/-- `drm_syncobj_timeline_query` — issues `DRM_IOCTL_SYNCOBJ_QUERY` with the
last-submitted flag; returns the point the kernel wrote back, or
`last_os_error()`. -/
def drm_syncobj_timeline_query (env : DrmEnv) (drm_fd : Int) (handle : Nat) :
    Except IOErr Nat × List KernelCall :=
  match env.queryRes drm_fd handle with
  | .ok point => (.ok point, [.queryIoctl drm_fd handle])
  | .error errno => (.error (.osError errno), [.queryIoctl drm_fd handle])

/-- `drm_syncobj_eventfd_register` — issues `DRM_IOCTL_SYNCOBJ_EVENTFD`. -/
def drm_syncobj_eventfd_register (env : DrmEnv) (drm_fd : Int) (handle : Nat)
    (timeline_point : Nat) (event_fd : Int) : Except IOErr Unit × List KernelCall :=
  match env.registerRes drm_fd handle timeline_point event_fd with
  | .ok () => (.ok (), [.eventfdRegisterIoctl drm_fd handle timeline_point event_fd])
  | .error errno => (.error (.osError errno), [.eventfdRegisterIoctl drm_fd handle timeline_point event_fd])

/-- The `for i in 0..16` loop of `find_drm_device_fd`, probing
`/dev/dri/cardN` from index `i` with `fuel` candidates left: open, validate
with `is_drm_fd`, and on the first success return `dup` of the fd (or the
dup failure); when the fuel runs out, `NotFound`. -/
def find_from (env : DrmEnv) (i : Nat) : Nat → Except IOErr Int × List KernelCall
  | 0 => (.error (.notFound "No DRM device found"), [])
  | fuel + 1 =>
    if env.openOk i then
      let fd := env.openFd i
      let (ok, t1) := is_drm_fd env fd
      if ok then
        let fd_copy := env.dupRes fd
        if fd_copy ≥ 0 then
          (.ok fd_copy, [.openDevice i] ++ t1 ++ [.dupSyscall fd])
        else
          (.error (.osError env.dupErrno), [.openDevice i] ++ t1 ++ [.dupSyscall fd])
      else
        let (res, t2) := find_from env (i + 1) fuel
        (res, [.openDevice i] ++ t1 ++ t2)
    else
      let (res, t2) := find_from env (i + 1) fuel
      (res, [.openDevice i] ++ t2)

/-- `find_drm_device_fd` — probes `/dev/dri/card0` .. `/dev/dri/card15` in
ascending order and returns the first opened fd that validates, duplicated;
`NotFound` when no candidate opens and validates. -/
def find_drm_device_fd (env : DrmEnv) : Except IOErr Int × List KernelCall :=
  find_from env 0 16

/-! ### Asynchronous waiters — `src/libspa/src/buffer/meta.rs` -/

/-- `std::task::Poll` -/
inductive PollState (α : Type)
  | ready (a : α)
  | pending
deriving DecidableEq, Repr

/-- Errors produced by `SyncObjTimelineWaiter::poll` — one constructor per
`anyhow!` site of the source. -/
inductive WaitError
  /-- "Real syncobj timeline wait timed out after ..." -/
  | timedOut
  /-- "Invalid DRM syncobj file descriptor: ..." -/
  | invalidDescriptor (fd : Int)
  /-- "Failed to query syncobj timeline: ..." -/
  | queryFailed (e : IOErr)
  /-- "Failed to setup eventfd notification: ..." -/
  | eventfdSetupFailed (errno : Nat)
  /-- "EventFD read error: ..." -/
  | eventfdReadError
  /-- "EventFD poll error: ..." -/
  | eventfdPollError (errno : Nat)
  /-- "EventFD not initialized properly" -/
  | eventfdNotInitialized
  /-- "Failed to find DRM device: ..." -/
  | findDeviceFailed (e : IOErr)
  /-- "Failed to get DRM handle: ..." -/
  | handleFailed (e : IOErr)
  /-- "Failed to register eventfd with DRM syncobj: ..." -/
  | registerFailed (e : IOErr)
deriving DecidableEq, Repr

/-- `SyncObjTimelineWaiter` — the per-wait state.  `start_time : Instant` is
not stored: the elapsed time since it is injected into `poll`.  The
`AsyncFd<File>` is modelled by its raw fd; the `Arc<AtomicBool>` by a
`Bool`. -/
structure SyncObjTimelineWaiter where
  timeline_fd : Int
  timeline_point : Nat
  /-- timeout in nanoseconds -/
  timeout : Nat
  event_fd : Option Int
  completed : Bool
deriving DecidableEq, Repr

/-- 5 seconds in nanoseconds (`Duration::from_secs(5)`). -/
def fiveSecondsNs : Nat := 5000000000

/-- 100 milliseconds in nanoseconds (`Duration::from_millis(100)`). -/
def hundredMillisNs : Nat := 100000000

/-- `SyncObjTimelineWaiter::new` -/
def SyncObjTimelineWaiter.new (timeline_fd : Int) (timeline_point : Nat) :
    SyncObjTimelineWaiter :=
  { timeline_fd, timeline_point, timeout := fiveSecondsNs,
    event_fd := none, completed := false }

/-- `SyncObjTimelineWaiter::with_timeout` -/
def SyncObjTimelineWaiter.with_timeout (timeline_fd : Int) (timeline_point : Nat)
    (timeout : Nat) : SyncObjTimelineWaiter :=
  { SyncObjTimelineWaiter.new timeline_fd timeline_point with timeout }

/-- `SyncObjTimelineWaiter::check_timeline_point` — find a DRM device,
resolve the timeline fd to a handle, query the last-submitted point, and
report whether it has reached `timeline_point`. -/
def SyncObjTimelineWaiter.check_timeline_point (env : DrmEnv)
    (self : SyncObjTimelineWaiter) : Except IOErr Bool × List KernelCall :=
  match find_drm_device_fd env with
  | (.error e, t1) => (.error e, t1)
  | (.ok drm_device, t1) =>
    match fd_to_drm_handle env drm_device self.timeline_fd with
    | (.error e, t2) => (.error e, t1 ++ t2)
    | (.ok handle, t2) =>
      match drm_syncobj_timeline_query env drm_device handle with
      | (.ok signaled_point, t3) =>
        (.ok (signaled_point ≥ self.timeline_point), t1 ++ t2 ++ t3)
      | (.error e, t3) => (.error e, t1 ++ t2 ++ t3)

/-- The tail of `SyncObjTimelineWaiter::poll` after a not-yet-signaled
query: register the eventfd with the kernel (device lookup, handle
resolution, `DRM_IOCTL_SYNCOBJ_EVENTFD`) and suspend. -/
def SyncObjTimelineWaiter.pollRegister (env : DrmEnv) (self : SyncObjTimelineWaiter)
    (event_fd : Int) (acc : List KernelCall) :
    PollState (Except WaitError Unit) × SyncObjTimelineWaiter × List KernelCall :=
  match find_drm_device_fd env with
  | (.error e, t1) => (.ready (.error (.findDeviceFailed e)), self, acc ++ t1)
  | (.ok drm_device, t1) =>
    match fd_to_drm_handle env drm_device self.timeline_fd with
    | (.error e, t2) => (.ready (.error (.handleFailed e)), self, acc ++ t1 ++ t2)
    | (.ok handle, t2) =>
      match drm_syncobj_eventfd_register env drm_device handle self.timeline_point event_fd with
      | (.error e, t3) => (.ready (.error (.registerFailed e)), self, acc ++ t1 ++ t2 ++ t3)
      | (.ok (), t3) => (.pending, self, acc ++ t1 ++ t2 ++ t3)

/-- The eventfd phase of `SyncObjTimelineWaiter::poll`: lazily create the
eventfd, poll it for readiness, drain the 8-byte counter on readiness
(`EWOULDBLOCK` means keep waiting), and otherwise register it with the
kernel for the target point and suspend. -/
def SyncObjTimelineWaiter.pollEventfd (env : DrmEnv) (self : SyncObjTimelineWaiter)
    (acc : List KernelCall) :
    PollState (Except WaitError Unit) × SyncObjTimelineWaiter × List KernelCall :=
  match self.event_fd with
  | none =>
    match env.eventfdRes with
    | .error errno =>
      (.ready (.error (.eventfdSetupFailed errno)), self, acc ++ [.eventfdSyscall])
    | .ok efd =>
      let self1 := { self with event_fd := some efd }
      match env.eventfdReady efd with
      | .readyErr e =>
        (.ready (.error (.eventfdPollError e)), self1, acc ++ [.eventfdSyscall])
      | .readyOk =>
        match env.eventfdRead efd with
        | .ok _ =>
          (.ready (.ok ()), { self1 with completed := true },
            acc ++ [.eventfdSyscall, .eventfdReadSyscall efd])
        | .ioErr _ =>
          (.ready (.error .eventfdReadError), self1,
            acc ++ [.eventfdSyscall, .eventfdReadSyscall efd])
        | .eof =>
          (.ready (.error .eventfdReadError), self1,
            acc ++ [.eventfdSyscall, .eventfdReadSyscall efd])
        | .wouldBlock =>
          SyncObjTimelineWaiter.pollRegister env self1 efd
            (acc ++ [.eventfdSyscall, .eventfdReadSyscall efd])
      | .pending =>
        SyncObjTimelineWaiter.pollRegister env self1 efd (acc ++ [.eventfdSyscall])
  | some efd =>
    match env.eventfdReady efd with
    | .readyErr e => (.ready (.error (.eventfdPollError e)), self, acc)
    | .readyOk =>
      match env.eventfdRead efd with
      | .ok _ =>
        (.ready (.ok ()), { self with completed := true }, acc ++ [.eventfdReadSyscall efd])
      | .ioErr _ =>
        (.ready (.error .eventfdReadError), self, acc ++ [.eventfdReadSyscall efd])
      | .eof =>
        (.ready (.error .eventfdReadError), self, acc ++ [.eventfdReadSyscall efd])
      | .wouldBlock =>
        SyncObjTimelineWaiter.pollRegister env self efd (acc ++ [.eventfdReadSyscall efd])
    | .pending => SyncObjTimelineWaiter.pollRegister env self efd acc

/-- `SyncObjTimelineWaiter::poll` — one step of the wait state machine.
`elapsed` is `self.start_time.elapsed()` at this poll, in nanoseconds
(injected clock). -/
def SyncObjTimelineWaiter.poll (env : DrmEnv) (elapsed : Nat)
    (self : SyncObjTimelineWaiter) :
    PollState (Except WaitError Unit) × SyncObjTimelineWaiter × List KernelCall :=
  if elapsed > self.timeout then
    (.ready (.error .timedOut), self, [])
  else if self.completed then
    (.ready (.ok ()), self, [])
  else if self.timeline_point = 0 then
    (.ready (.ok ()), self, [])
  else
    let (okFd, t1) := is_drm_fd env self.timeline_fd
    if okFd then
      match SyncObjTimelineWaiter.check_timeline_point env self with
      | (.ok true, t2) => (.ready (.ok ()), { self with completed := true }, t1 ++ t2)
      | (.ok false, t2) => SyncObjTimelineWaiter.pollEventfd env self (t1 ++ t2)
      | (.error e, t2) => (.ready (.error (.queryFailed e)), self, t1 ++ t2)
    else
      (.ready (.error (.invalidDescriptor self.timeline_fd)), self, t1)

/-- Errors produced by `SyncFuture::poll`. -/
inductive SyncError
  /-- "Sync timeline wait timed out" -/
  | timedOut
  /-- an error forwarded from the inner `SyncObjTimelineWaiter` -/
  | inner (e : WaitError)
deriving DecidableEq, Repr

/-- `SyncFuture` — target timeline point plus a timeout; `start_time` is
again replaced by the elapsed time injected into `poll`. -/
structure SyncFuture where
  timeline_point : Nat
  /-- timeout in nanoseconds -/
  timeout : Nat
deriving DecidableEq, Repr

/-- `SyncFuture::new` — 5 second timeout. -/
def SyncFuture.new (timeline_point : Nat) : SyncFuture :=
  { timeline_point, timeout := fiveSecondsNs }

/-- `SyncFuture::with_timeout` -/
def SyncFuture.with_timeout (timeline_point : Nat) (timeout : Nat) : SyncFuture :=
  { timeline_point, timeout }

/-- `SyncFuture::poll` — deadline check, then the point-0 fast path, then a
freshly created placeholder `SyncObjTimelineWaiter` with fd `-1` and a 100ms
timeout is polled (its elapsed time is 0: it was created in this very poll);
an inner error with a positive timeline point is swallowed into `Ok`. -/
def SyncFuture.poll (env : DrmEnv) (elapsed : Nat) (self : SyncFuture) :
    PollState (Except SyncError Unit) × List KernelCall :=
  if elapsed > self.timeout then
    (.ready (.error .timedOut), [])
  else if self.timeline_point = 0 then
    (.ready (.ok ()), [])
  else
    let real_waiter := SyncObjTimelineWaiter.with_timeout (-1) self.timeline_point hundredMillisNs
    match SyncObjTimelineWaiter.poll env 0 real_waiter with
    | (.ready (.ok ()), _, t) => (.ready (.ok ()), t)
    | (.ready (.error e), _, t) =>
      if self.timeline_point > 0 then (.ready (.ok ()), t)
      else (.ready (.error (.inner e)), t)
    | (.pending, _, t) => (.pending, t)

/-! ### Async utilities — `src/pipewire/src/async_v/utils.rs` -/

/-- `TimeoutError` of `async_v/utils.rs`. -/
inductive TimeoutError
  /-- "Deadline exceeded" -/
  | deadlineExceeded
  /-- "Maximum poll count exceeded" -/
  | maxPollsExceeded
deriving DecidableEq, Repr

/-- `TimeoutFuture<F>` — the inner future is abstracted away (its one poll
outcome is injected into `poll`); `deadline` is an absolute instant in
nanoseconds, `poll_count` the `AtomicUsize` counter. -/
structure TimeoutFuture where
  deadline : Nat
  poll_count : Nat
  max_polls : Nat
deriving DecidableEq, Repr

/-- `TimeoutFuture::new` — `deadline = Instant::now() + timeout` with the
construction instant `now` injected; the maximum poll count is a
per-construction argument. -/
def TimeoutFuture.new (now : Nat) (timeout : Nat) (max_polls : Nat) : TimeoutFuture :=
  { deadline := now + timeout, poll_count := 0, max_polls }

/-- `TimeoutFuture::poll` — poll-count bound first, then the deadline, then
one poll of the inner future (whose outcome `inner` is injected); `now` is
`Instant::now()` at this poll. -/
def TimeoutFuture.poll (α : Type) (self : TimeoutFuture) (now : Nat)
    (inner : PollState α) : PollState (Except TimeoutError α) × TimeoutFuture :=
  if self.poll_count ≥ self.max_polls then
    (.ready (.error .maxPollsExceeded), self)
  else if now > self.deadline then
    (.ready (.error .deadlineExceeded), self)
  else
    let self1 := { self with poll_count := self.poll_count + 1 }
    match inner with
    | .ready value => (.ready (.ok value), self1)
    | .pending => (.pending, self1)

/-- Triple Modular Redundancy cell (`TMR<T>`): `values: [Option<T>; 3]`
modelled as a triple. -/
structure TMR (T : Type) where
  values : Option T × Option T × Option T
deriving DecidableEq, Repr

/-- `TMR::new` -/
def TMR.new (T : Type) : TMR T := ⟨(none, none, none)⟩

/-- `TMR::set` — store the value into all three slots. -/
def TMR.set {T : Type} (_self : TMR T) (value : T) : TMR T :=
  ⟨(some value, some value, some value)⟩

/-- `TMR::get` — majority vote: with all three slots occupied, the first
slot when it agrees with the second or third, else the second when it agrees
with the third, else `None`; `None` whenever any slot is vacant (the match
arms require `(Some, Some, Some)`). -/
def TMR.get {T : Type} [DecidableEq T] (self : TMR T) : Option T :=
  match self.values with
  | (some a, some b, some c) =>
    if a = b ∨ a = c then some a
    else if b = c then some b
    else none
  | _ => none

/-! ### Timeline acquire/release futures — `src/pipewire/src/async_v/buffer.rs` -/

/-- `TimelineAcquireFuture` — waits until the timeline's stored
`acquire_point` reaches the target.  The raw timeline pointer is replaced by
injecting the current stored point into `poll`; the waker is dropped (it
does not influence the poll result). -/
structure TimelineAcquireFuture where
  acquire_point : Nat
  poll_count : Nat
  max_polls : Nat
deriving DecidableEq, Repr

/-- `TimelineAcquireFuture::new` — poll count 0, `max_polls: 1000`
("Bounded execution guarantee"); the bound is not a parameter. -/
def TimelineAcquireFuture.new (acquire_point : Nat) : TimelineAcquireFuture :=
  { acquire_point, poll_count := 0, max_polls := 1000 }

/-- `TimelineAcquireFuture::poll` — bound check first, then increment the
counter and compare the timeline's current stored acquire point
(`current_point`, read through the raw pointer in the source) against the
target. -/
def TimelineAcquireFuture.poll (self : TimelineAcquireFuture) (current_point : Nat) :
    PollState (Except String Unit) × TimelineAcquireFuture :=
  if self.poll_count ≥ self.max_polls then
    (.ready (.error "Maximum poll count exceeded waiting for acquire point"), self)
  else
    let self1 := { self with poll_count := self.poll_count + 1 }
    if current_point ≥ self.acquire_point then
      (.ready (.ok ()), self1)
    else
      (.pending, self1)

/-! ### Timeline state holder — `src/libspa/src/buffer/meta.rs`
(`SyncTimelineRef` over an `Arc<spa_meta_sync_timeline>`) -/

/-- `spa_sys::spa_meta_sync_timeline` -/
structure spa_meta_sync_timeline where
  flags : Nat
  padding : Nat
  acquire_point : Nat
  release_point : Nat
deriving DecidableEq, Repr

/-- `Arc::get_mut` — exclusive access succeeds exactly when the `Arc` has no
other clone.  Sharing is modelled by a `Bool` recording whether other clones
exist. -/
def Arc.get_mut {α : Type} (shared : Bool) (a : α) : Option α :=
  if shared then none else some a

/-- `SyncTimelineRef(Arc<spa_meta_sync_timeline>)` — the payload plus
whether the `Arc` is shared (has been cloned). -/
structure SyncTimelineRef where
  inner : spa_meta_sync_timeline
  shared : Bool
deriving DecidableEq, Repr

/-- Outcome of a mutating operation: the new state, a returned `anyhow`
error, or a panic (`expect`/`unwrap` aborting the process). -/
inductive MutOutcome (α : Type)
  | ok (a : α)
  | err (msg : String)
  | panicked (msg : String)
deriving DecidableEq, Repr

/-- `SyncTimelineRef::set_acquire_point` — mutate through `Arc::get_mut`,
returning an error when the `Arc` is shared. -/
def SyncTimelineRef.set_acquire_point (self : SyncTimelineRef) (point : Nat) :
    MutOutcome SyncTimelineRef :=
  match Arc.get_mut self.shared self.inner with
  | some inner => .ok { self with inner := { inner with acquire_point := point } }
  | none => .err "Failed to get mutable access to modify the acquire point"

/-- `SyncTimelineRef::signal_release` — writes through
`release_point_mut`, which calls `Arc::get_mut(..).map(..).expect(..)`:
when the `Arc` is shared the `expect` panics instead of returning an
error. -/
def SyncTimelineRef.signal_release (self : SyncTimelineRef) (release_point : Nat) :
    MutOutcome SyncTimelineRef :=
  match Arc.get_mut self.shared self.inner with
  | some inner => .ok { self with inner := { inner with release_point := release_point } }
  | none => .panicked "Failed to get mutable access to release point"

/-! ### Concrete oracle environments used by witnesses -/

/-- An environment in which every system call fails: no fd passes the DRM
version probe, no device node opens, every ioctl errors with errno 9
(`EBADF`). -/
def envAllFail : DrmEnv :=
  { versionOk := fun _ => false
    openOk := fun _ => false
    openFd := fun _ => -1
    dupRes := fun _ => -1
    dupErrno := 9
    fdToHandleRes := fun _ _ => .error 9
    queryRes := fun _ _ => .error 9
    eventfdRes := .error 9
    eventfdReady := fun _ => .pending
    eventfdRead := fun _ => .wouldBlock
    registerRes := fun _ _ _ _ => .error 9 }

/-- An environment with a single DRM device: `/dev/dri/card0` does not open,
`/dev/dri/card1` opens as fd 100, which passes the version probe and
duplicates to fd 42; every syncobj ioctl succeeds. -/
def envCardOne : DrmEnv :=
  { versionOk := fun fd => fd = 100 ∨ fd = 42
    openOk := fun i => i = 1
    openFd := fun _ => 100
    dupRes := fun _ => 42
    dupErrno := 9
    fdToHandleRes := fun _ _ => .ok 7
    queryRes := fun _ _ => .ok 1000
    eventfdRes := .ok 55
    eventfdReady := fun _ => .pending
    eventfdRead := fun _ => .wouldBlock
    registerRes := fun _ _ _ _ => .ok () }

/-! ### Claims -/

/-- C1: for both wait operations (the eventfd-backed `SyncObjTimelineWaiter`
and the generic `SyncFuture`), a poll whose elapsed time already exceeds the
timeout resolves with the timeout error and nothing else: no `Ok`, no
suspension, and an empty kernel-call trace — for every environment, every
target point (including 0) and every completion flag, so the deadline check
precedes every other step of the state machine. -/
theorem wait_deadline_first_resolves_timeout (env : DrmEnv) (elapsed : Nat)
    (w : SyncObjTimelineWaiter) (e2 : Nat) (sf : SyncFuture)
    (hw : elapsed > w.timeout) (hs : e2 > sf.timeout) :
    SyncObjTimelineWaiter.poll env elapsed w = (.ready (.error .timedOut), w, [])
    ∧ SyncFuture.poll env e2 sf = (.ready (.error .timedOut), []) := by
  constructor
  · unfold SyncObjTimelineWaiter.poll
    simp [hw]
  · unfold SyncFuture.poll
    simp [hs]

/-- Witness for C1: a waiter on fd 3 for the already-signaled-looking point 0
with the default 5s timeout, polled 6s in, resolves `timedOut`, as does a
`SyncFuture` for point 0. -/
theorem wait_deadline_first_resolves_timeout_witness :
    SyncObjTimelineWaiter.poll envAllFail 6000000000 (SyncObjTimelineWaiter.new 3 0)
        = (.ready (.error .timedOut), SyncObjTimelineWaiter.new 3 0, [])
    ∧ SyncFuture.poll envAllFail 6000000000 (SyncFuture.new 0)
        = (.ready (.error .timedOut), []) :=
  wait_deadline_first_resolves_timeout envAllFail 6000000000 (SyncObjTimelineWaiter.new 3 0)
    6000000000 (SyncFuture.new 0) (by decide) (by decide)

/-- C2: for both wait operations, a poll with target point 0 whose deadline
has not elapsed resolves `Ok` immediately — no suspension and an empty
kernel-call trace (no version probe, no device lookup, no handle
resolution, no query, no eventfd call), for every environment. -/
theorem point_zero_fast_path_no_kernel_call (env : DrmEnv) (elapsed : Nat)
    (w : SyncObjTimelineWaiter) (e2 : Nat) (sf : SyncFuture)
    (hw1 : elapsed ≤ w.timeout) (hw2 : w.timeline_point = 0)
    (hs1 : e2 ≤ sf.timeout) (hs2 : sf.timeline_point = 0) :
    SyncObjTimelineWaiter.poll env elapsed w = (.ready (.ok ()), w, [])
    ∧ SyncFuture.poll env e2 sf = (.ready (.ok ()), []) := by
  constructor
  · unfold SyncObjTimelineWaiter.poll
    simp [Nat.not_lt.mpr hw1, hw2]
  · unfold SyncFuture.poll
    simp [Nat.not_lt.mpr hs1, hs2]

/-- Witness for C2: a fresh waiter on fd 3 for point 0 polled at elapsed 0
resolves `Ok` with no kernel call, as does a fresh `SyncFuture` for
point 0. -/
theorem point_zero_fast_path_no_kernel_call_witness :
    SyncObjTimelineWaiter.poll envAllFail 0 (SyncObjTimelineWaiter.new 3 0)
        = (.ready (.ok ()), SyncObjTimelineWaiter.new 3 0, [])
    ∧ SyncFuture.poll envAllFail 0 (SyncFuture.new 0)
        = (.ready (.ok ()), []) :=
  point_zero_fast_path_no_kernel_call envAllFail 0 (SyncObjTimelineWaiter.new 3 0)
    0 (SyncFuture.new 0) (by decide) rfl (by decide) rfl

/-- Counterexample to C3: in an environment where no fd passes the DRM
version probe (so the placeholder fd `-1` of `SyncFuture` does not validate),
a `SyncFuture` for the nonzero point 1 polled at elapsed 0 resolves `Ok` —
the claim says such a wait never resolves `Ok`. -/
theorem sync_future_invalid_fd_resolves_ok :
    envAllFail.versionOk (-1) = false
    ∧ SyncFuture.poll envAllFail 0 (SyncFuture.new 1)
        = (.ready (.ok ()), [.versionIoctl (-1)]) := by
  constructor
  · rfl
  · rfl

/-- C3 as amended: for the eventfd-backed `SyncObjTimelineWaiter`, a not-yet
completed wait with a nonzero target point whose fd fails the version probe
resolves on this very poll — never `Ok` and never pending: with the timeout
error when the deadline has elapsed, and with the invalid-descriptor error
otherwise.  The generic `SyncFuture`, whose inner placeholder waiter uses
fd `-1`, instead swallows that waiter's error and resolves `Ok` whenever its
point is nonzero and its deadline has not elapsed. -/
theorem invalid_fd_wait_resolution (env : DrmEnv) (elapsed : Nat)
    (w : SyncObjTimelineWaiter)
    (h1 : w.completed = false) (h2 : w.timeline_point ≠ 0)
    (h3 : env.versionOk w.timeline_fd = false) :
    (SyncObjTimelineWaiter.poll env elapsed w).1 =
      .ready (.error (if elapsed > w.timeout then .timedOut
                      else .invalidDescriptor w.timeline_fd))
    ∧ ∀ (e2 : Nat) (sf : SyncFuture), sf.timeline_point ≠ 0 → e2 ≤ sf.timeout →
        env.versionOk (-1) = false →
        (SyncFuture.poll env e2 sf).1 = .ready (.ok ()) := by
  constructor
  · unfold SyncObjTimelineWaiter.poll
    by_cases ht : elapsed > w.timeout
    · simp [ht]
    · simp [ht, h1, h2, is_drm_fd, h3]
  · intro e2 sf hp he hv
    unfold SyncFuture.poll
    simp only [Nat.not_lt.mpr he, if_false, hp, if_neg]
    unfold SyncObjTimelineWaiter.poll
    simp [SyncObjTimelineWaiter.with_timeout, SyncObjTimelineWaiter.new,
      hundredMillisNs, is_drm_fd, hv, hp, Nat.pos_of_ne_zero hp]

/-- Witness for C3 (amended): a fresh waiter on the non-validating fd 7 for
point 3 resolves invalid-descriptor at elapsed 0, while a fresh `SyncFuture`
for point 1 resolves `Ok` in the same all-failing environment. -/
theorem invalid_fd_wait_resolution_witness :
    (SyncObjTimelineWaiter.poll envAllFail 0 (SyncObjTimelineWaiter.new 7 3)).1
        = .ready (.error (.invalidDescriptor 7))
    ∧ (SyncFuture.poll envAllFail 0 (SyncFuture.new 1)).1 = .ready (.ok ()) := by
  have h := invalid_fd_wait_resolution envAllFail 0 (SyncObjTimelineWaiter.new 7 3)
    rfl (by decide) rfl
  refine ⟨?_, h.2 0 (SyncFuture.new 1) (by decide) (by decide) rfl⟩
  have h1 := h.1
  simpa [SyncObjTimelineWaiter.new, fiveSecondsNs] using h1

/-- C4: at the failing input — a buffer whose data array is
`[MemPtr, SyncObj fd 10, SyncObj fd 11]` — the extraction
`extract_timeline_fds_from_buffer_data` fails with the not-found error even
though two sync-object elements are present, because its loop keys on the
absolute array index (0/1) rather than on the ordinal of the sync-object
elements, contradicting its own comment ("First syncobj fd is for acquire
timeline") and the spec; `Buffer::get_sync_fds` on the same buffer returns
`(10, 11)` as the claim demands, and on the all-sync-object prefix layout
(`[SyncObj 10, SyncObj 11]` / a single `[SyncObj 10]`) the extraction
behaves as the spec scenario states. -/
theorem timeline_fd_extraction_at_failing_input :
    SyncTimelineRef.extract_timeline_fds_from_buffer_data
        [⟨⟨1, 0, -1⟩⟩, ⟨⟨5, 0, 10⟩⟩, ⟨⟨5, 0, 11⟩⟩]
      = .error "Buffer does not contain required acquire and release timeline file descriptors"
    ∧ Buffer.get_sync_fds [⟨⟨1, 0, -1⟩⟩, ⟨⟨5, 0, 10⟩⟩, ⟨⟨5, 0, 11⟩⟩] = some (10, 11)
    ∧ SyncTimelineRef.extract_timeline_fds_from_buffer_data [⟨⟨5, 0, 10⟩⟩, ⟨⟨5, 0, 11⟩⟩]
      = .ok (10, 11)
    ∧ SyncTimelineRef.extract_timeline_fds_from_buffer_data [⟨⟨5, 0, 10⟩⟩]
      = .error "Buffer does not contain required acquire and release timeline file descriptors" := by
  refine ⟨?_, ?_, ?_, ?_⟩ <;> rfl

/-- C5 as amended: the number of suspend/resume cycles of a wait is bounded
by a maximum poll count: once the counter has reached the bound,
`TimeoutFuture` resolves `MaxPollsExceeded` (before even looking at the
clock — `now` is arbitrary and the deadline check comes second) and
`TimelineAcquireFuture` resolves its max-poll-count error (it consults no
clock at all).  The bound is the hardcoded 1000 for every
`TimelineAcquireFuture` (its constructor has no bound parameter, so it is
not overridable per operation), while `TimeoutFuture::new` takes the bound
(and the timeout) as required per-operation arguments with no default. -/
theorem max_suspension_bound_resolves_error (α : Type) (tf : TimeoutFuture)
    (now : Nat) (inner : PollState α) (taf : TimelineAcquireFuture) (cur : Nat)
    (h1 : tf.poll_count ≥ tf.max_polls) (h2 : taf.poll_count ≥ taf.max_polls) :
    (TimeoutFuture.poll α tf now inner).1 = .ready (.error .maxPollsExceeded)
    ∧ (TimelineAcquireFuture.poll taf cur).1
        = .ready (.error "Maximum poll count exceeded waiting for acquire point")
    ∧ (∀ p, (TimelineAcquireFuture.new p).max_polls = 1000)
    ∧ (∀ n t m, (TimeoutFuture.new n t m).max_polls = m
        ∧ (TimeoutFuture.new n t m).deadline = n + t) := by
  refine ⟨?_, ?_, fun _ => rfl, fun _ _ _ => ⟨rfl, rfl⟩⟩
  · unfold TimeoutFuture.poll
    simp [h1]
  · unfold TimelineAcquireFuture.poll
    simp [h2]

/-- Witness for C5: a `TimeoutFuture` whose counter (5) has reached its
bound (5) resolves `MaxPollsExceeded` even though the clock (0) is far
before the deadline (100), and a `TimelineAcquireFuture` at counter 1000 of
bound 1000 resolves the max-poll-count error even though the timeline point
is already signaled (1000 ≥ 3). -/
theorem max_suspension_bound_resolves_error_witness :
    (TimeoutFuture.poll Nat ⟨100, 5, 5⟩ 0 (.ready 3)).1
        = .ready (.error .maxPollsExceeded)
    ∧ (TimelineAcquireFuture.poll ⟨3, 1000, 1000⟩ 1000).1
        = .ready (.error "Maximum poll count exceeded waiting for acquire point") := by
  have h := max_suspension_bound_resolves_error Nat ⟨100, 5, 5⟩ 0 (.ready 3)
    ⟨3, 1000, 1000⟩ 1000 (by decide) (by decide)
  exact ⟨h.1, h.2.1⟩

/-- Counterexample to C5's "defaulting to 1000 and overridable per
operation": `TimelineAcquireFuture::new` takes only the target acquire
point — at the concrete inputs 0 and 999 it produces the same fixed bound
1000, and its signature (`Nat → TimelineAcquireFuture`, mirroring
`new(timeline, acquire_point)` with private fields and no other
constructor) offers no way to pass a different bound, so the bound of an
acquire wait is not overridable per operation; conversely a `TimeoutFuture`
is only ever constructed with an explicit per-operation bound (here 5) —
there is no construction that defaults it to 1000. -/
theorem suspension_bound_not_overridable :
    (TimelineAcquireFuture.new 0).max_polls = 1000
    ∧ (TimelineAcquireFuture.new 999).max_polls = 1000
    ∧ (TimeoutFuture.new 0 100 5).max_polls = 5 :=
  ⟨rfl, rfl, rfl⟩

/-- C6: `fd_to_drm_handle` first runs the DRM version probe on the device
fd; when the probe fails it returns the invalid-device error having issued
only the version ioctl (no FD_TO_HANDLE ioctl); when the probe succeeds it
issues `DRM_IOCTL_SYNCOBJ_FD_TO_HANDLE` and returns the kernel-written
handle on zero return status, or an OS error preserving the errno on
nonzero status. -/
theorem fd_to_drm_handle_validation_and_errno (env : DrmEnv) (dev sfd : Int) :
    (env.versionOk dev = false →
      fd_to_drm_handle env dev sfd =
        (.error (.invalidInput "Not a valid DRM device file descriptor"),
          [.versionIoctl dev]))
    ∧ (∀ handle, env.versionOk dev = true → env.fdToHandleRes dev sfd = .ok handle →
        fd_to_drm_handle env dev sfd =
          (.ok handle, [.versionIoctl dev, .fdToHandleIoctl dev sfd]))
    ∧ (∀ errno, env.versionOk dev = true → env.fdToHandleRes dev sfd = .error errno →
        fd_to_drm_handle env dev sfd =
          (.error (.osError errno), [.versionIoctl dev, .fdToHandleIoctl dev sfd])) := by
  refine ⟨fun hv => ?_, fun handle hv hr => ?_, fun errno hv hr => ?_⟩
  · unfold fd_to_drm_handle
    simp [is_drm_fd, hv]
  · unfold fd_to_drm_handle
    simp [is_drm_fd, hv, hr]
  · unfold fd_to_drm_handle
    simp [is_drm_fd, hv, hr]

/-- Witness for C6: fd 3 fails the probe in the all-failing environment and
gets `InvalidInput` without the FD_TO_HANDLE ioctl; fd 100 passes the probe
in `envCardOne` and the ioctl returns handle 7. -/
theorem fd_to_drm_handle_validation_and_errno_witness :
    fd_to_drm_handle envAllFail 3 4 =
      (.error (.invalidInput "Not a valid DRM device file descriptor"), [.versionIoctl 3])
    ∧ fd_to_drm_handle envCardOne 100 4 =
      (.ok 7, [.versionIoctl 100, .fdToHandleIoctl 100 4]) :=
  ⟨(fd_to_drm_handle_validation_and_errno envAllFail 3 4).1 rfl,
    (fd_to_drm_handle_validation_and_errno envCardOne 100 4).2.1 7 (by decide) rfl⟩

/-- Candidate device index `i` opens and passes the DRM version probe. -/
def validCard (env : DrmEnv) (i : Nat) : Prop :=
  env.openOk i = true ∧ env.versionOk (env.openFd i) = true

instance (env : DrmEnv) (i : Nat) : Decidable (validCard env i) := by
  unfold validCard
  infer_instance

/-- When no candidate in the probed window opens and validates, the probe
loop reports `NotFound`. -/
theorem find_from_not_found (env : DrmEnv) (fuel : Nat) :
    ∀ i, (∀ j, i ≤ j → j < i + fuel → ¬ validCard env j) →
    (find_from env i fuel).1 = .error (.notFound "No DRM device found") := by
  induction fuel with
  | zero => intro i _; rfl
  | succ n ih =>
    intro i h
    have hnv := h i le_rfl (by omega)
    unfold find_from
    by_cases ho : env.openOk i = true
    · have hv : env.versionOk (env.openFd i) = false := by
        by_contra hc
        exact hnv ⟨ho, by simpa using hc⟩
      rcases hfr : find_from env (i + 1) n with ⟨res, t2⟩
      simp [ho, is_drm_fd, hv, hfr]
      have := ih (i + 1) (fun j hj1 hj2 => h j (by omega) (by omega))
      rw [hfr] at this
      exact this
    · have ho' : env.openOk i = false := by simpa using ho
      rcases hfr : find_from env (i + 1) n with ⟨res, t2⟩
      simp [ho', is_drm_fd, hfr]
      have := ih (i + 1) (fun j hj1 hj2 => h j (by omega) (by omega))
      rw [hfr] at this
      exact this

/-- The probe loop returns the duplicate of the first candidate (in
ascending index order) that opens and validates. -/
theorem find_from_first_valid (env : DrmEnv) (fuel : Nat) :
    ∀ i i₀, i ≤ i₀ → i₀ < i + fuel → validCard env i₀ →
    (∀ j, i ≤ j → j < i₀ → ¬ validCard env j) →
    env.dupRes (env.openFd i₀) ≥ 0 →
    (find_from env i fuel).1 = .ok (env.dupRes (env.openFd i₀)) := by
  induction fuel with
  | zero => intro i i₀ h1 h2 _ _ _; omega
  | succ n ih =>
    intro i i₀ h1 h2 hv hmin hdup
    unfold find_from
    by_cases hi : i = i₀
    · subst hi
      simp [hv.1, is_drm_fd, hv.2, hdup]
    · have hlt : i < i₀ := lt_of_le_of_ne h1 hi
      have hnv := hmin i le_rfl hlt
      have hrec := ih (i + 1) i₀ (by omega) (by omega) hv
        (fun j hj1 hj2 => hmin j (by omega) hj2) hdup
      by_cases ho : env.openOk i = true
      · have hvv : env.versionOk (env.openFd i) = false := by
          by_contra hc
          exact hnv ⟨ho, by simpa using hc⟩
        rcases hfr : find_from env (i + 1) n with ⟨res, t2⟩
        simp [ho, is_drm_fd, hvv, hfr]
        rw [hfr] at hrec
        exact hrec
      · have ho' : env.openOk i = false := by simpa using ho
        rcases hfr : find_from env (i + 1) n with ⟨res, t2⟩
        simp [ho', is_drm_fd, hfr]
        rw [hfr] at hrec
        exact hrec

/-- C7: `find_drm_device_fd` probes `/dev/dri/card0` through
`/dev/dri/card15` in ascending order; when no candidate opens and passes the
version probe it returns `NotFound`, and otherwise it returns the
first candidate (least index) that opens and validates, as an owned
duplicated descriptor (the result of `dup` on the temporarily opened
fd). -/
theorem find_drm_device_fd_first_valid_or_not_found (env : DrmEnv) :
    ((∀ i, i < 16 → ¬ validCard env i) →
      (find_drm_device_fd env).1 = .error (.notFound "No DRM device found"))
    ∧ (∀ i₀, i₀ < 16 → validCard env i₀ → (∀ j, j < i₀ → ¬ validCard env j) →
        env.dupRes (env.openFd i₀) ≥ 0 →
        (find_drm_device_fd env).1 = .ok (env.dupRes (env.openFd i₀))) := by
  constructor
  · intro h
    exact find_from_not_found env 16 0 (fun j _ hj2 => h j (by omega))
  · intro i₀ hi₀ hv hmin hdup
    exact find_from_first_valid env 16 0 i₀ (Nat.zero_le _) (by omega) hv
      (fun j _ hj2 => hmin j hj2) hdup

/-- Witness for C7: in the all-failing environment the probe returns
`NotFound`; in `envCardOne` — where card 0 does not open and card 1 opens as
fd 100, validates, and duplicates to 42 — it returns fd 42. -/
theorem find_drm_device_fd_first_valid_or_not_found_witness :
    (find_drm_device_fd envAllFail).1 = .error (.notFound "No DRM device found")
    ∧ (find_drm_device_fd envCardOne).1 = .ok 42 :=
  ⟨(find_drm_device_fd_first_valid_or_not_found envAllFail).1 (by decide),
    (find_drm_device_fd_first_valid_or_not_found envCardOne).2 1 (by decide)
      (by decide) (by decide) (by decide)⟩

/-- The claim's notion of agreement for the TMR cell: at least two of the
three stored copies hold the value `w`. -/
def TMR.two_copies_agree {T : Type} (self : TMR T) (w : T) : Prop :=
  (self.values.1 = some w ∧ self.values.2.1 = some w)
  ∨ (self.values.1 = some w ∧ self.values.2.2 = some w)
  ∨ (self.values.2.1 = some w ∧ self.values.2.2 = some w)

/-- Counterexample to C8: in the cell state `(some 1, some 1, none)` the
first two copies agree on the value 1, yet `get` returns `none` — the
source's majority vote demands all three slots be occupied, so the claim
"get() returns Some(w) if at least two of the three stored copies agree on
w" fails on this state. -/
theorem tmr_two_agree_with_vacant_slot_returns_none :
    TMR.two_copies_agree (⟨(some 1, some 1, none)⟩ : TMR Nat) 1
    ∧ TMR.get (⟨(some 1, some 1, none)⟩ : TMR Nat) = none := by
  exact ⟨Or.inl ⟨rfl, rfl⟩, rfl⟩

/-- C8 as amended: `set(v)` stores `v` into all three slots and `get`
immediately afterwards returns `some v`; on a state whose three slots are
all occupied, `get` returns `some w` exactly when at least two of the three
copies agree on `w`; on a state with any vacant slot `get` returns `none`
even if the two occupied copies agree. -/
theorem tmr_set_get_majority {T : Type} [DecidableEq T] (t s : TMR T)
    (v a b c w : T) :
    ((t.set v).values = (some v, some v, some v) ∧ (t.set v).get = some v)
    ∧ (TMR.get (⟨(some a, some b, some c)⟩ : TMR T) = some w ↔
        TMR.two_copies_agree (⟨(some a, some b, some c)⟩ : TMR T) w)
    ∧ ((s.values.1 = none ∨ s.values.2.1 = none ∨ s.values.2.2 = none) →
        s.get = none) := by
  refine ⟨⟨rfl, by simp [TMR.set, TMR.get]⟩, ?_, ?_⟩
  · by_cases hab : a = b <;> by_cases hac : a = c <;> by_cases hbc : b = c <;>
      simp_all [TMR.get, TMR.two_copies_agree, eq_comm] <;>
      first
      | tauto
      | (refine ⟨fun h1 h2 => ?_, fun h1 h2 => ?_, fun h1 h2 => ?_⟩ <;>
          subst_vars <;> simp_all)
  · intro h
    rcases s with ⟨⟨v1, v2, v3⟩⟩
    cases v1 <;> cases v2 <;> cases v3 <;> simp_all [TMR.get]

/-- Witness for C8 (amended): after `set 5` on a fresh cell `get` returns
`some 5`; on the state `(none, some 1, some 1)` — two agreeing copies but a
vacant first slot — `get` returns `none`. -/
theorem tmr_set_get_majority_witness :
    ((TMR.new Nat).set 5).get = some 5
    ∧ TMR.get (⟨(none, some 1, some 1)⟩ : TMR Nat) = none := by
  have h := tmr_set_get_majority (TMR.new Nat) (⟨(none, some 1, some 1)⟩ : TMR Nat)
    5 0 0 0 0
  exact ⟨h.1.2, h.2.2 (Or.inl rfl)⟩

/-- C9: at the failing input — a `SyncTimelineRef` whose `Arc` is shared
(it has been cloned, so `Arc::get_mut` yields nothing) — `signal_release`
panics through the `expect` inside `release_point_mut` instead of returning
an error, while `set_acquire_point` on the same shared state returns the
error value the claim demands. -/
theorem signal_release_panics_on_shared_arc :
    SyncTimelineRef.signal_release ⟨⟨0, 0, 0, 0⟩, true⟩ 5
      = .panicked "Failed to get mutable access to release point"
    ∧ SyncTimelineRef.set_acquire_point ⟨⟨0, 0, 0, 0⟩, true⟩ 7
      = .err "Failed to get mutable access to modify the acquire point" :=
  ⟨rfl, rfl⟩

/-- C10: `Data::fd` returns `some x` exactly when the element's type is
`MemFd`, `DmaBuf` or `SyncObj`, the stored 64-bit descriptor is non-negative
and below `2^31` (representable as an `i32` file descriptor), and `x` is
that descriptor; in every other case it returns `none`.  The function is
total, so it never panics. -/
theorem data_fd_iff_valid_type_and_range (d : Data) (x : Int) :
    Data.fd d = some x ↔
      ((d.type_ = DataType.MemFd ∨ d.type_ = DataType.DmaBuf ∨ d.type_ = DataType.SyncObj)
        ∧ 0 ≤ d.raw.fd ∧ d.raw.fd < 2 ^ 31 ∧ x = d.raw.fd) := by
  unfold Data.fd i64_try_into_i32
  by_cases h1 : d.type_ = DataType.MemFd ∨ d.type_ = DataType.DmaBuf ∨ d.type_ = DataType.SyncObj <;>
    by_cases h2 : d.raw.fd ≥ 0 <;>
    by_cases h3 : -(2 ^ 31) ≤ d.raw.fd ∧ d.raw.fd < 2 ^ 31 <;>
    simp [h1, h2, h3, eq_comm] <;>
    omega
